import Mathlib

/-!
Shallow embedding of the SEO metric-interpretation and scoring engine
(`interpretSeoMetrics` / `calculateAggregatedScore`), translated from the
TypeScript source. Machine numbers in the source are JS numbers, but every
value flowing into these rules is a string length or element count, hence
modelled as `Nat`. The source reads its untyped input through a defaulting
helper `get(data, path, default)`; that is modelled by `Option`-typed fields
read through `Option.getD` with the source's default at each read site.
-/

/-- Status of one evaluated metric, as in the source union
"good" | "warning" | "critical" | "unknown". Category priorities reuse the
same type (the source restricts them to the first three values). -/
inductive Status where
  | good
  | warning
  | critical
  | unknown
deriving DecidableEq, Repr

/-- One interpreted finding: display title, status and guidance copy. The
optional internal `metric` name of the source is never assigned and omitted. -/
structure MetricResult where
  title : String
  status : Status
  plainExplanation : String
  whyItMatters : String
  action : String
deriving DecidableEq, Repr

/-- A named, ordered group of metric results. -/
structure SeoSection where
  name : String
  metrics : List MetricResult
deriving DecidableEq, Repr

/-- One of the three breakdown categories. -/
structure SeoBreakdownCategory where
  score : Nat
  label : String
  description : String
  passed : Nat
  total : Nat
  priority : Status
deriving DecidableEq, Repr

/-- The weakest/strongest/focus summary of the breakdown. -/
structure BreakdownSummary where
  weakestArea : String
  strongestArea : String
  recommendedFocus : String
deriving DecidableEq, Repr

/-- The three-category breakdown plus its summary. -/
structure SeoBreakdown where
  onPage : SeoBreakdownCategory
  technical : SeoBreakdownCategory
  authority : SeoBreakdownCategory
  summary : BreakdownSummary
deriving DecidableEq, Repr

/-- The action-list summary of the report. -/
structure ActionSummary where
  actions : List String
deriving DecidableEq, Repr

/-- The full report returned by the interpreter. -/
structure SeoReport where
  sections : List SeoSection
  summary : ActionSummary
  score : Nat
  seoBreakdown : SeoBreakdown
deriving DecidableEq, Repr

/-- Image alt-text statistics, `onpage.images.altStats` in the input. -/
structure AltStats where
  total : Nat
  missing : Nat
deriving DecidableEq, Repr

/-- The input fact record. Every leaf the source reads is optional: a `none`
field models a missing path, for which the source's `get` helper substitutes
the documented default at the read site. -/
structure PageFacts where
  titleExists : Option Bool
  titleLength : Option Nat
  metaExists : Option Bool
  metaLength : Option Nat
  hasOg : Option Bool
  h1Count : Option Nat
  wordCount : Option Nat
  altStats : Option AltStats
  https : Option Bool
  mobileFriendly : Option Bool
  noindex : Option Bool
  sitemap : Option Bool
  internalLinks : Option Nat
  hasSchema : Option Bool
deriving DecidableEq, Repr

/-- Models JS Math.round for the quotient num/den with den > 0: round half
up, computed exactly as floor((2*num + den) / (2*den)). Every division this
module performs has small denominators (metric-list lengths), for which the
exact rational value is never close enough to a half-integer for the
source's float evaluation to round differently. For den = 0 this yields 0;
the interpreter never reaches that case (all its metric lists are
nonempty). -/
def roundDiv (num den : Nat) : Nat :=
  (2 * num + den) / (2 * den)

/-- Source helper clamp(n, min, max) = Math.max(min, Math.min(max, n)). -/
def clamp (n lo hi : Nat) : Nat :=
  max lo (min hi n)

/-- Source helper getPriority: critical below 30, warning below 70,
otherwise good. -/
def getPriority (score : Nat) : Status :=
  if score < 30 then Status.critical
  else if score < 70 then Status.warning
  else Status.good

/-- Per-status point value used by calculateAggregatedScore's accumulation
chain: good adds 100, warning 50, critical 0, anything else (unknown) 70. -/
def statusPoints : Status → Nat
  | Status.good => 100
  | Status.warning => 50
  | Status.critical => 0
  | Status.unknown => 70

/-- Title rule of the Search visibility section. -/
def titleMetric (f : PageFacts) : MetricResult :=
  let titleLen := f.titleLength.getD 0
  let titleExists := f.titleExists.getD false
  if titleExists = false then
    { title := "Page Title"
      status := Status.critical
      plainExplanation := "Your page doesn\x27t have a title defined in the code."
      whyItMatters := "Google uses this title to show your page in search results. Without it, you look invisible or broken."
      action := "Add a clear, short title between 30 and 60 characters." }
  else if titleLen > 60 then
    { title := "Title Length"
      status := Status.critical
      plainExplanation := "Your title is too long (" ++ toString titleLen ++ " characters)."
      whyItMatters := "Google will cut off the end of long titles, making your link look messy and unprofessional to searchers."
      action := "Shorten the title to under 60 characters." }
  else if titleLen < 30 then
    { title := "Title Length"
      status := Status.warning
      plainExplanation := "Your title is a bit too short."
      whyItMatters := "Short titles don\x27t give Google enough context to rank you for different search terms."
      action := "Add a few more descriptive words or your brand name to the title." }
  else
    { title := "Title Length"
      status := Status.good
      plainExplanation := "Your title length is perfect."
      whyItMatters := "It will display fully on most screens, ensuring people see your full message."
      action := "Keep it as is." }

/-- Meta-description rule of the Search visibility section. -/
def metaMetric (f : PageFacts) : MetricResult :=
  let metaExists := f.metaExists.getD false
  let metaLen := f.metaLength.getD 0
  if metaExists = false then
    { title := "Search Snippet (Meta)"
      status := Status.critical
      plainExplanation := "There is no description for this page in the search results."
      whyItMatters := "Google has to guess what your page is about, which often leads to less clicks from potential visitors."
      action := "Add a compelling description of 120-160 characters." }
  else if metaLen < 100 ∨ metaLen > 160 then
    { title := "Search Snippet (Meta)"
      status := Status.warning
      plainExplanation := "The description of your page is either too short or too long."
      whyItMatters := "If it\x27s too long, it gets cut off. If it\x27s too short, it\x27s not convincing enough for users to click."
      action := "Aim for a length between 120 and 160 characters." }
  else
    { title := "Search Snippet (Meta)"
      status := Status.good
      plainExplanation := "Your search result description is well-balanced."
      whyItMatters := "It helps you stand out and encourages more people to click on your link."
      action := "No changes needed." }

/-- Open Graph rule of the Search visibility section. -/
def ogMetric (f : PageFacts) : MetricResult :=
  let hasOg := f.hasOg.getD false
  { title := "Social Media Preview"
    status := if hasOg then Status.good else Status.warning
    plainExplanation :=
      if hasOg then "Social media preview signals are present."
      else "Missing specific signals for social media sharing."
    whyItMatters := "When people share your link on Facebook or Twitter, these signals ensure it looks beautiful with an image and title."
    action :=
      if hasOg then "Check if the images look good."
      else "Add \x27Open Graph\x27 tags to control how your site looks on social media." }

/-- H1 rule of the Content strength section. -/
def h1Metric (f : PageFacts) : MetricResult :=
  let h1Count := f.h1Count.getD 0
  if h1Count = 0 then
    { title := "Main Headline (H1)"
      status := Status.critical
      plainExplanation := "Google can\x27t quickly understand what this specific page is about because the main headline is missing."
      whyItMatters := "The H1 is the primary signal to Google and visitors about the page\x27s topic. Without it, your message is lost."
      action := "Add one clear main headline (H1 tag) to the top of the page." }
  else if h1Count > 1 then
    { title := "Main Headlines (H1)"
      status := Status.warning
      plainExplanation := "You have multiple main headlines on this page."
      whyItMatters := "It\x27s like reading a book with two different titles on the same cover; it confuses Google about your main focus."
      action := "Keep only one main headline and turn the others into sub-headlines." }
  else
    { title := "Main Headline (H1)"
      status := Status.good
      plainExplanation := "You have a clear, single main headline."
      whyItMatters := "Google knows exactly what the topic of this page is."
      action := "Good job, no action needed." }

/-- Word-count rule of the Content strength section. -/
def wordCountMetric (f : PageFacts) : MetricResult :=
  let wc := f.wordCount.getD 0
  if wc < 300 then
    { title := "Content Depth"
      status := Status.critical
      plainExplanation := "This page is very \x27thin\x27 with only " ++ toString wc ++ " words."
      whyItMatters := "Google prefers pages that provide thorough answers. Short pages rarely rank on the first page."
      action := "Expand your content with more helpful details, examples, or data." }
  else if wc < 600 then
    { title := "Content Depth"
      status := Status.warning
      plainExplanation := "The content is okay, but it might not be enough to beat competitors."
      whyItMatters := "The top results in Google usually have between 1000 and 2000 words."
      action := "Consider adding more value or answering common questions people have about this topic." }
  else
    { title := "Content Depth"
      status := Status.good
      plainExplanation := "You have a solid amount of content on this page."
      whyItMatters := "This shows Google you are covering the topic seriously."
      action := "Ensure the content stays updated and relevant." }

/-- Image alt-text rule of the Content strength section: pushes one result
when there is at least one image, nothing otherwise. -/
def imageMetrics (f : PageFacts) : List MetricResult :=
  let altStats := f.altStats.getD { total := 0, missing := 0 }
  if altStats.total > 0 ∧ altStats.missing > 0 then
    [{ title := "Image accessibility"
       status := Status.warning
       plainExplanation := toString altStats.missing ++ " images on your site have no text descriptions."
       whyItMatters := "Google cannot \x27see\x27 images. It uses these descriptions to understand what\x27s in the picture and rank you in Image Search."
       action := "Add descriptive \x27alt text\x27 to every image on your page." }]
  else if altStats.total > 0 then
    [{ title := "Image accessibility"
       status := Status.good
       plainExplanation := "All your images have text descriptions."
       whyItMatters := "This helps blind users and gives Google more keywords to rank you for."
       action := "Perfect. No action needed." }]
  else
    []

/-- HTTPS rule of the Technical health section. -/
def httpsMetric (f : PageFacts) : MetricResult :=
  let isHttps := f.https.getD false
  { title := "Connection Security"
    status := if isHttps then Status.good else Status.critical
    plainExplanation :=
      if isHttps then "Your connection is secure."
      else "Your website is flagged as \x27Not Secure\x27 by Google."
    whyItMatters := "Google downranks non-secure websites and browsers show a scary warning to your visitors."
    action :=
      if isHttps then "No action needed."
      else "Enable HTTPS (SSL certificate) immediately." }

/-- Mobile-friendliness rule of the Technical health section. -/
def mobileMetric (f : PageFacts) : MetricResult :=
  let isMobile := f.mobileFriendly.getD false
  { title := "Mobile Friendliness"
    status := if isMobile then Status.good else Status.critical
    plainExplanation :=
      if isMobile then "Your site is built for mobile users."
      else "Your site might be hard to use on a phone."
    whyItMatters := "Over 60% of searches happen on mobile. Google uses the mobile version of your site to rank you."
    action :=
      if isMobile then "No action needed."
      else "Check your \x27viewport\x27 settings and ensure text isn\x27t too small." }

/-- Indexability rule of the Technical health section. -/
def noindexMetric (f : PageFacts) : MetricResult :=
  let noIndex := f.noindex.getD false
  { title := "Search Visibility Lock"
    status := if noIndex then Status.critical else Status.good
    plainExplanation :=
      if noIndex then "Your site is currently hidden from Google."
      else "Google is allowed to show your site in results."
    whyItMatters := "If this is \x27on\x27, you will NEVER rank in Google, no matter how good your content is."
    action :=
      if noIndex then "Remove the \x27noindex\x27 tag from your code."
      else "Keep it as is." }

/-- Sitemap rule of the Technical health section. -/
def sitemapMetric (f : PageFacts) : MetricResult :=
  let hasSitemap := f.sitemap.getD false
  { title := "Google\x27s Map (Sitemap)"
    status := if hasSitemap then Status.good else Status.warning
    plainExplanation :=
      if hasSitemap then "You have a map for Google to follow."
      else "Google doesn\x27t have an easy sitemap to find all your pages."
    whyItMatters := "A sitemap helps Google find and crawl and index all your important pages faster."
    action :=
      if hasSitemap then "No action needed."
      else "Create a sitemap.xml file and submit it to Google." }

/-- Internal-links rule of the Trust and credibility section. -/
def internalLinksMetric (f : PageFacts) : MetricResult :=
  let internalCount := f.internalLinks.getD 0
  { title := "Topic Connection"
    status := if internalCount > 5 then Status.good else Status.warning
    plainExplanation :=
      if internalCount > 0 then "You have " ++ toString internalCount ++ " internal links."
      else "No links to other pages on your site found."
    whyItMatters := "Linking to your other pages helps Google understand your expertise and spreads \x27ranking power\x27 throughout your site."
    action :=
      if internalCount > 5 then "Keep linking to relevant pages."
      else "Add links to 5-10 other relevant pages on your website." }

/-- Schema rule of the Trust and credibility section. -/
def schemaMetric (f : PageFacts) : MetricResult :=
  let hasSchema := f.hasSchema.getD false
  { title := "Rich Search Results"
    status := if hasSchema then Status.good else Status.warning
    plainExplanation :=
      if hasSchema then "You are using special code to speak to Google."
      else "You aren\x27t using \x27Schema\x27 code on this page."
    whyItMatters := "This code helps you get \x27rich results\x27 like star ratings, prices, or FAQ snippets that stand out."
    action :=
      if hasSchema then "Ensure the data is accurate."
      else "Add \x27LD+JSON\x27 schema markup for your business or product." }

/-- Search visibility section metrics, in source push order. -/
def searchVisibility (f : PageFacts) : List MetricResult :=
  [titleMetric f, metaMetric f, ogMetric f]

/-- Content strength section metrics, in source push order. -/
def contentStrength (f : PageFacts) : List MetricResult :=
  [h1Metric f, wordCountMetric f] ++ imageMetrics f

/-- Technical health section metrics, in source push order. -/
def technicalHealth (f : PageFacts) : List MetricResult :=
  [httpsMetric f, mobileMetric f, noindexMetric f, sitemapMetric f]

/-- Trust and credibility section metrics, in source push order. -/
def trustCredibility (f : PageFacts) : List MetricResult :=
  [internalLinksMetric f, schemaMetric f]

/-- Growth signals section: two hard-coded results, independent of input. -/
def growthSignals : List MetricResult :=
  [{ title := "Other Sites Recommending You"
     status := Status.unknown
     plainExplanation := "We couldn\x27t determine the number of websites linking to you."
     whyItMatters := "Getting links from other sites is the #1 way to build authority and outrank big competitors."
     action := "Register for a free service like Google Search Console to see your backlinks." },
   { title := "Domain Authority"
     status := Status.unknown
     plainExplanation := "Domain age and history could not be verified."
     whyItMatters := "Older, well-established sites often have an easier time ranking than brand new ones."
     action := "Focus on creating high-quality, unique content to build your site\x27s reputation over time." }]

/-- The five report sections in their fixed order. -/
def sectionsOf (f : PageFacts) : List SeoSection :=
  [{ name := "Search visibility", metrics := searchVisibility f },
   { name := "Content strength", metrics := contentStrength f },
   { name := "Technical health", metrics := technicalHealth f },
   { name := "Trust & credibility", metrics := trustCredibility f },
   { name := "Growth signals", metrics := growthSignals }]

/-- All metric results with status critical, in section-then-rule order
(the source collects them with a nested forEach over sections). -/
def criticalMetrics (sections : List SeoSection) : List MetricResult :=
  ((sections.map SeoSection.metrics).flatten).filter fun m =>
    decide (m.status = Status.critical)

/-- Action summary: the actions of the first four critical results, or the
fixed fallback action when no critical result exists. -/
def actionsOf (sections : List SeoSection) : List String :=
  let acts := ((criticalMetrics sections).take 4).map MetricResult.action
  if acts.isEmpty then
    ["Focus on getting more high-quality links from other websites."]
  else
    acts

/-- Source calculateAggregatedScore: a single pass accumulating a point
total and a metric count over every metric of every section, then
Math.round(total / count). -/
def calculateAggregatedScore (sections : List SeoSection) : Nat :=
  let p := ((sections.map SeoSection.metrics).flatten).foldl
    (fun acc m => (acc.1 + statusPoints m.status, acc.2 + 1)) (0, 0)
  roundDiv p.1 p.2

/-- Source calculateCat: passed counts good results; score is
Math.round(passed / total * 100) clamped to [15, 95], or 15 when the
category has no metrics. -/
def calculateCat (metrics : List MetricResult) (label description : String) :
    SeoBreakdownCategory :=
  let total := metrics.length
  let passed := (metrics.filter fun m => decide (m.status = Status.good)).length
  let score := if total > 0 then clamp (roundDiv (passed * 100) total) 15 95 else 15
  { score := score
    label := label
    description := description
    passed := passed
    total := total
    priority := getPriority score }

/-- Weakest/strongest/focus selection: the source sorts the fixed
three-entry key/score array ascending by score with the (stable) JS array
sort and reads entries 0 and 2. JS sort with a consistent comparator is
stable, which an insertion sort models exactly. -/
def breakdownSummary (onPageScore technicalScore authorityScore : Nat) :
    BreakdownSummary :=
  let categories : List (String × Nat) :=
    [("onPage", onPageScore), ("technical", technicalScore),
     ("authority", authorityScore)]
  let sorted := List.insertionSort (fun a b => a.2 ≤ b.2) categories
  { weakestArea := (sorted.getD 0 ("", 0)).1
    strongestArea := (sorted.getD 2 ("", 0)).1
    recommendedFocus := (sorted.getD 0 ("", 0)).1 }

/-- The interpreter: sections, action summary, aggregate score and
three-category breakdown, assembled exactly as in the source. -/
def interpretSeoMetrics (f : PageFacts) : SeoReport :=
  let sections := sectionsOf f
  let onPage := calculateCat (searchVisibility f ++ contentStrength f)
    "On-page SEO" "Content and keyword optimization"
  let technical := calculateCat (technicalHealth f)
    "Technical SEO" "Speed, crawlability, and indexability"
  let authority := calculateCat (trustCredibility f ++ growthSignals)
    "Authority" "Links, trust, and domain strength"
  { sections := sections
    summary := { actions := actionsOf sections }
    score := calculateAggregatedScore sections
    seoBreakdown :=
      { onPage := onPage
        technical := technical
        authority := authority
        summary :=
          breakdownSummary onPage.score technical.score authority.score } }

/-- Normalization that replaces every missing input field by the default
the source's get helper would substitute for it. -/
def normalizeFacts (f : PageFacts) : PageFacts :=
  { titleExists := some (f.titleExists.getD false)
    titleLength := some (f.titleLength.getD 0)
    metaExists := some (f.metaExists.getD false)
    metaLength := some (f.metaLength.getD 0)
    hasOg := some (f.hasOg.getD false)
    h1Count := some (f.h1Count.getD 0)
    wordCount := some (f.wordCount.getD 0)
    altStats := some (f.altStats.getD { total := 0, missing := 0 })
    https := some (f.https.getD false)
    mobileFriendly := some (f.mobileFriendly.getD false)
    noindex := some (f.noindex.getD false)
    sitemap := some (f.sitemap.getD false)
    internalLinks := some (f.internalLinks.getD 0)
    hasSchema := some (f.hasSchema.getD false) }

/-- Fact record with every field missing. -/
def emptyFacts : PageFacts :=
  { titleExists := none, titleLength := none, metaExists := none
    metaLength := none, hasOg := none, h1Count := none, wordCount := none
    altStats := none, https := none, mobileFriendly := none, noindex := none
    sitemap := none, internalLinks := none, hasSchema := none }

/-- Fact record on which every determinable rule passes. -/
def goodFacts : PageFacts :=
  { titleExists := some true, titleLength := some 40, metaExists := some true
    metaLength := some 130, hasOg := some true, h1Count := some 1
    wordCount := some 700, altStats := some { total := 10, missing := 0 }
    https := some true, mobileFriendly := some true, noindex := some false
    sitemap := some true, internalLinks := some 10, hasSchema := some true }

/-- Facts with an existing title of the given length, all else missing. -/
def titleFacts (len : Nat) : PageFacts :=
  { emptyFacts with titleExists := some true, titleLength := some len }

/-- Facts with the given image alt statistics, all else missing. -/
def imageFacts (total missing : Nat) : PageFacts :=
  { emptyFacts with altStats := some { total := total, missing := missing } }

/-- A throwaway metric result carrying only a status. -/
def mkMetric (s : Status) : MetricResult :=
  { title := "m", status := s, plainExplanation := "", whyItMatters := ""
    action := "" }

/-- Nine metric results of which exactly three are good. -/
def nineMetrics : List MetricResult :=
  List.replicate 3 (mkMetric Status.good) ++
    List.replicate 6 (mkMetric Status.warning)

/-- Placeholder metric result used as a list-indexing default. -/
def emptyMetric : MetricResult :=
  { title := "", status := Status.good, plainExplanation := ""
    whyItMatters := "", action := "" }

/-- Placeholder section used as a list-indexing default. -/
def emptySection : SeoSection :=
  { name := "", metrics := [] }

/-- Category-score formula as the specification words it (round
passed/total times 100, clamp to [15, 95], default 15 on an empty
category), stated for comparison against the engine's calculateCat. -/
def specCategoryScore (passed total : Nat) : Nat :=
  if total > 0 then clamp (roundDiv (passed * 100) total) 15 95 else 15

theorem foldl_points (ms : List MetricResult) (a b : Nat) :
    ms.foldl (fun acc m => (acc.1 + statusPoints m.status, acc.2 + 1)) (a, b)
      = (a + (ms.map fun m => statusPoints m.status).sum, b + ms.length) := by
  induction ms generalizing a b with
  | nil => simp
  | cons m ms ih =>
    simp only [List.foldl_cons, ih, List.map_cons, List.sum_cons,
      List.length_cons, Prod.mk.injEq]
    omega

theorem sum_points_le (ms : List MetricResult) :
    (ms.map fun m => statusPoints m.status).sum ≤ 100 * ms.length := by
  induction ms with
  | nil => simp
  | cons m ms ih =>
    have h : statusPoints m.status ≤ 100 := by
      cases m.status <;> simp [statusPoints]
    simp only [List.map_cons, List.sum_cons, List.length_cons]
    omega

theorem roundDiv_le_100 (num den : Nat) (hden : 0 < den)
    (h : num ≤ 100 * den) : roundDiv num den ≤ 100 := by
  unfold roundDiv
  have h1 : 2 * num + den ≤ den + 2 * den * 100 := by omega
  have h2 : (2 * num + den) / (2 * den) ≤ (den + 2 * den * 100) / (2 * den) :=
    Nat.div_le_div_right h1
  have h3 : (den + 2 * den * 100) / (2 * den) = den / (2 * den) + 100 :=
    Nat.add_mul_div_left den 100 (by omega)
  have h4 : den / (2 * den) = 0 := Nat.div_eq_of_lt (by omega)
  omega

theorem calculateCat_score_bounds (ms : List MetricResult) (l d : String) :
    15 ≤ (calculateCat ms l d).score ∧ (calculateCat ms l d).score ≤ 95 := by
  simp only [calculateCat, clamp]
  split <;> omega

theorem allMetrics_length_pos (f : PageFacts) :
    0 < (((sectionsOf f).map SeoSection.metrics).flatten).length := by
  simp [sectionsOf, searchVisibility, contentStrength, technicalHealth,
    trustCredibility, growthSignals]

theorem breakdownSummary_eq (o t a : Nat) :
    breakdownSummary o t a =
      { weakestArea := if o ≤ t ∧ o ≤ a then "onPage"
          else if t ≤ a then "technical" else "authority"
        strongestArea := if o ≤ a ∧ t ≤ a then "authority"
          else if o ≤ t then "technical" else "onPage"
        recommendedFocus := if o ≤ t ∧ o ≤ a then "onPage"
          else if t ≤ a then "technical" else "authority" } := by
  unfold breakdownSummary
  by_cases hta : t ≤ a <;> by_cases hot : o ≤ t <;> by_cases hoa : o ≤ a <;>
    simp [List.insertionSort, List.orderedInsert, hta, hot, hoa] <;>
    omega

/-- C1: for every PageFacts input, the report's aggregate score equals the
average over all emitted metric results in all five sections (growth
signals included) of the per-status point value good 100, warning 50,
critical 0, unknown 70, rounded to the nearest integer (JS Math.round). -/
theorem aggregate_score_is_rounded_average (f : PageFacts) :
    (interpretSeoMetrics f).score =
      roundDiv
        ((((interpretSeoMetrics f).sections.map SeoSection.metrics).flatten.map
          fun m => statusPoints m.status).sum)
        (((interpretSeoMetrics f).sections.map SeoSection.metrics).flatten.length) := by
  have hsec : (interpretSeoMetrics f).sections = sectionsOf f := rfl
  have hscore : (interpretSeoMetrics f).score
      = calculateAggregatedScore (sectionsOf f) := rfl
  rw [hscore, hsec]
  simp only [calculateAggregatedScore, foldl_points]
  simp

/-- C2: for every PageFacts input and each of the three breakdown
categories, total is the category's metric count, passed counts only good
metrics, the score is round(passed/total times 100) clamped to [15, 95]
with 15 for an empty category, and the priority is critical below 30,
warning below 70, good otherwise; moreover 9 metrics with 3 good yield
score 33 and priority warning. -/
theorem category_score_formula (f : PageFacts) :
    ((interpretSeoMetrics f).seoBreakdown.onPage.total
        = (searchVisibility f ++ contentStrength f).length
      ∧ (interpretSeoMetrics f).seoBreakdown.onPage.passed
        = ((searchVisibility f ++ contentStrength f).filter fun m =>
            decide (m.status = Status.good)).length
      ∧ (interpretSeoMetrics f).seoBreakdown.onPage.score
        = specCategoryScore (interpretSeoMetrics f).seoBreakdown.onPage.passed
            (interpretSeoMetrics f).seoBreakdown.onPage.total
      ∧ (interpretSeoMetrics f).seoBreakdown.onPage.priority
        = getPriority (interpretSeoMetrics f).seoBreakdown.onPage.score)
    ∧ ((interpretSeoMetrics f).seoBreakdown.technical.total
        = (technicalHealth f).length
      ∧ (interpretSeoMetrics f).seoBreakdown.technical.passed
        = ((technicalHealth f).filter fun m =>
            decide (m.status = Status.good)).length
      ∧ (interpretSeoMetrics f).seoBreakdown.technical.score
        = specCategoryScore (interpretSeoMetrics f).seoBreakdown.technical.passed
            (interpretSeoMetrics f).seoBreakdown.technical.total
      ∧ (interpretSeoMetrics f).seoBreakdown.technical.priority
        = getPriority (interpretSeoMetrics f).seoBreakdown.technical.score)
    ∧ ((interpretSeoMetrics f).seoBreakdown.authority.total
        = (trustCredibility f ++ growthSignals).length
      ∧ (interpretSeoMetrics f).seoBreakdown.authority.passed
        = ((trustCredibility f ++ growthSignals).filter fun m =>
            decide (m.status = Status.good)).length
      ∧ (interpretSeoMetrics f).seoBreakdown.authority.score
        = specCategoryScore (interpretSeoMetrics f).seoBreakdown.authority.passed
            (interpretSeoMetrics f).seoBreakdown.authority.total
      ∧ (interpretSeoMetrics f).seoBreakdown.authority.priority
        = getPriority (interpretSeoMetrics f).seoBreakdown.authority.score)
    ∧ (calculateCat nineMetrics "x" "y").score = 33
    ∧ (calculateCat nineMetrics "x" "y").priority = Status.warning := by
  exact ⟨⟨rfl, rfl, rfl, rfl⟩, ⟨rfl, rfl, rfl, rfl⟩, ⟨rfl, rfl, rfl, rfl⟩,
    rfl, rfl⟩

/-- C7: for every PageFacts input, the fifth section is the constant
Growth signals section: exactly two metric results, both unknown, all
fields fixed constants that no input field affects. -/
theorem growth_signals_constant (f : PageFacts) :
    (interpretSeoMetrics f).sections.getD 4 emptySection
      = { name := "Growth signals", metrics := growthSignals }
    ∧ growthSignals.length = 2
    ∧ growthSignals.map MetricResult.status
      = [Status.unknown, Status.unknown] :=
  ⟨rfl, rfl, rfl⟩

/-- C8: for every PageFacts input, the aggregate score lies in [0, 100]
and each breakdown category score lies in [15, 95]. -/
theorem report_score_bounds (f : PageFacts) :
    0 ≤ (interpretSeoMetrics f).score
    ∧ (interpretSeoMetrics f).score ≤ 100
    ∧ 15 ≤ (interpretSeoMetrics f).seoBreakdown.onPage.score
    ∧ (interpretSeoMetrics f).seoBreakdown.onPage.score ≤ 95
    ∧ 15 ≤ (interpretSeoMetrics f).seoBreakdown.technical.score
    ∧ (interpretSeoMetrics f).seoBreakdown.technical.score ≤ 95
    ∧ 15 ≤ (interpretSeoMetrics f).seoBreakdown.authority.score
    ∧ (interpretSeoMetrics f).seoBreakdown.authority.score ≤ 95 := by
  have hon : (interpretSeoMetrics f).seoBreakdown.onPage
      = calculateCat (searchVisibility f ++ contentStrength f)
        "On-page SEO" "Content and keyword optimization" := rfl
  have hte : (interpretSeoMetrics f).seoBreakdown.technical
      = calculateCat (technicalHealth f)
        "Technical SEO" "Speed, crawlability, and indexability" := rfl
  have hau : (interpretSeoMetrics f).seoBreakdown.authority
      = calculateCat (trustCredibility f ++ growthSignals)
        "Authority" "Links, trust, and domain strength" := rfl
  refine ⟨Nat.zero_le _, ?_,
    (hon ▸ calculateCat_score_bounds _ _ _).1,
    (hon ▸ calculateCat_score_bounds _ _ _).2,
    (hte ▸ calculateCat_score_bounds _ _ _).1,
    (hte ▸ calculateCat_score_bounds _ _ _).2,
    (hau ▸ calculateCat_score_bounds _ _ _).1,
    (hau ▸ calculateCat_score_bounds _ _ _).2⟩
  have hscore : (interpretSeoMetrics f).score
      = calculateAggregatedScore (sectionsOf f) := rfl
  rw [hscore]
  simp only [calculateAggregatedScore, foldl_points, Nat.zero_add]
  exact roundDiv_le_100 _ _ (allMetrics_length_pos f) (sum_points_le _)

/-- C3 counterexample: goodFacts produces zero critical results, and the
code's fallback action list is the fixed string about focusing on
high-quality links, not the list containing the string the claim quotes. -/
theorem actions_fallback_counterexample :
    (criticalMetrics (sectionsOf goodFacts)).length = 0
    ∧ (interpretSeoMetrics goodFacts).summary.actions
      = ["Focus on getting more high-quality links from other websites."]
    ∧ (decide ((interpretSeoMetrics goodFacts).summary.actions
        = ["build more external links"])) = false := by
  refine ⟨rfl, rfl, ?_⟩
  decide

/-- C3 (amended): summary.actions is the verbatim action texts, in
section-then-rule order, of the first 4 critical metric results; with zero
critical results it is exactly the single fixed generic action string
"Focus on getting more high-quality links from other websites."; and an
input producing 6 critical results is capped at 4 actions. -/
theorem actions_first_four_critical (f : PageFacts) :
    (interpretSeoMetrics f).summary.actions =
      (if ((((interpretSeoMetrics f).sections.map SeoSection.metrics).flatten).filter
            fun m => decide (m.status = Status.critical)).isEmpty
       then ["Focus on getting more high-quality links from other websites."]
       else (((((interpretSeoMetrics f).sections.map SeoSection.metrics).flatten).filter
            fun m => decide (m.status = Status.critical)).take 4).map
          MetricResult.action)
    ∧ (criticalMetrics (sectionsOf emptyFacts)).length = 6
    ∧ ((interpretSeoMetrics emptyFacts).summary.actions).length = 4 := by
  refine ⟨?_, rfl, rfl⟩
  have hact : (interpretSeoMetrics f).summary.actions
      = actionsOf (sectionsOf f) := rfl
  have hcrit : ((((interpretSeoMetrics f).sections.map SeoSection.metrics).flatten).filter
      fun m => decide (m.status = Status.critical))
      = criticalMetrics (sectionsOf f) := rfl
  rw [hact, hcrit]
  unfold actionsOf
  generalize criticalMetrics (sectionsOf f) = cs
  cases cs <;> simp

/-- C4: the first metric of the Search visibility section follows the
priority chain: missing title gives critical, else length above 60
critical, else length below 30 warning, else good; with boundary values
59 good, 61 critical, 29 warning, 30 good. -/
theorem title_rule (f : PageFacts) :
    (((interpretSeoMetrics f).sections.getD 0 emptySection).metrics.getD 0
        emptyMetric).status
      = (if f.titleExists.getD false = false then Status.critical
         else if f.titleLength.getD 0 > 60 then Status.critical
         else if f.titleLength.getD 0 < 30 then Status.warning
         else Status.good)
    ∧ (((interpretSeoMetrics (titleFacts 59)).sections.getD 0
        emptySection).metrics.getD 0 emptyMetric).status = Status.good
    ∧ (((interpretSeoMetrics (titleFacts 61)).sections.getD 0
        emptySection).metrics.getD 0 emptyMetric).status = Status.critical
    ∧ (((interpretSeoMetrics (titleFacts 29)).sections.getD 0
        emptySection).metrics.getD 0 emptyMetric).status = Status.warning
    ∧ (((interpretSeoMetrics (titleFacts 30)).sections.getD 0
        emptySection).metrics.getD 0 emptyMetric).status = Status.good
    ∧ (((interpretSeoMetrics emptyFacts).sections.getD 0
        emptySection).metrics.getD 0 emptyMetric).status = Status.critical := by
  refine ⟨?_, rfl, rfl, rfl, rfl, rfl⟩
  have h : ((interpretSeoMetrics f).sections.getD 0 emptySection).metrics.getD 0
      emptyMetric = titleMetric f := rfl
  rw [h]
  simp only [titleMetric]
  split_ifs <;> rfl

/-- C6: the breakdown summary comes from the stable ascending sort of the
three category scores: the earliest minimum is both weakestArea and
recommendedFocus, the latest maximum is strongestArea (ties resolved by
the fixed onPage, technical, authority entry order), and the sample scores
20, 80, 50 select onPage, technical, onPage. -/
theorem weakest_strongest_selection (f : PageFacts) :
    (interpretSeoMetrics f).seoBreakdown.summary.weakestArea
      = (if (interpretSeoMetrics f).seoBreakdown.onPage.score
              ≤ (interpretSeoMetrics f).seoBreakdown.technical.score
            ∧ (interpretSeoMetrics f).seoBreakdown.onPage.score
              ≤ (interpretSeoMetrics f).seoBreakdown.authority.score
         then "onPage"
         else if (interpretSeoMetrics f).seoBreakdown.technical.score
              ≤ (interpretSeoMetrics f).seoBreakdown.authority.score
         then "technical" else "authority")
    ∧ (interpretSeoMetrics f).seoBreakdown.summary.strongestArea
      = (if (interpretSeoMetrics f).seoBreakdown.onPage.score
              ≤ (interpretSeoMetrics f).seoBreakdown.authority.score
            ∧ (interpretSeoMetrics f).seoBreakdown.technical.score
              ≤ (interpretSeoMetrics f).seoBreakdown.authority.score
         then "authority"
         else if (interpretSeoMetrics f).seoBreakdown.onPage.score
              ≤ (interpretSeoMetrics f).seoBreakdown.technical.score
         then "technical" else "onPage")
    ∧ (interpretSeoMetrics f).seoBreakdown.summary.recommendedFocus
      = (interpretSeoMetrics f).seoBreakdown.summary.weakestArea
    ∧ breakdownSummary 20 80 50
      = { weakestArea := "onPage", strongestArea := "technical"
          recommendedFocus := "onPage" } := by
  have h : (interpretSeoMetrics f).seoBreakdown.summary
      = breakdownSummary (interpretSeoMetrics f).seoBreakdown.onPage.score
          (interpretSeoMetrics f).seoBreakdown.technical.score
          (interpretSeoMetrics f).seoBreakdown.authority.score := rfl
  refine ⟨?_, ?_, ?_, by decide⟩
  · rw [h, breakdownSummary_eq]
  · rw [h, breakdownSummary_eq]
  · rw [h, breakdownSummary_eq]

theorem titleMetric_normalize (f : PageFacts) :
    titleMetric (normalizeFacts f) = titleMetric f := by
  simp [titleMetric, normalizeFacts]

theorem metaMetric_normalize (f : PageFacts) :
    metaMetric (normalizeFacts f) = metaMetric f := by
  simp [metaMetric, normalizeFacts]

theorem ogMetric_normalize (f : PageFacts) :
    ogMetric (normalizeFacts f) = ogMetric f := by
  simp [ogMetric, normalizeFacts]

theorem h1Metric_normalize (f : PageFacts) :
    h1Metric (normalizeFacts f) = h1Metric f := by
  simp [h1Metric, normalizeFacts]

theorem wordCountMetric_normalize (f : PageFacts) :
    wordCountMetric (normalizeFacts f) = wordCountMetric f := by
  simp [wordCountMetric, normalizeFacts]

theorem imageMetrics_normalize (f : PageFacts) :
    imageMetrics (normalizeFacts f) = imageMetrics f := by
  simp [imageMetrics, normalizeFacts]

theorem httpsMetric_normalize (f : PageFacts) :
    httpsMetric (normalizeFacts f) = httpsMetric f := by
  simp [httpsMetric, normalizeFacts]

theorem mobileMetric_normalize (f : PageFacts) :
    mobileMetric (normalizeFacts f) = mobileMetric f := by
  simp [mobileMetric, normalizeFacts]

theorem noindexMetric_normalize (f : PageFacts) :
    noindexMetric (normalizeFacts f) = noindexMetric f := by
  simp [noindexMetric, normalizeFacts]

theorem sitemapMetric_normalize (f : PageFacts) :
    sitemapMetric (normalizeFacts f) = sitemapMetric f := by
  simp [sitemapMetric, normalizeFacts]

theorem internalLinksMetric_normalize (f : PageFacts) :
    internalLinksMetric (normalizeFacts f) = internalLinksMetric f := by
  simp [internalLinksMetric, normalizeFacts]

theorem schemaMetric_normalize (f : PageFacts) :
    schemaMetric (normalizeFacts f) = schemaMetric f := by
  simp [schemaMetric, normalizeFacts]

theorem searchVisibility_normalize (f : PageFacts) :
    searchVisibility (normalizeFacts f) = searchVisibility f := by
  simp only [searchVisibility, titleMetric_normalize, metaMetric_normalize,
    ogMetric_normalize]

theorem contentStrength_normalize (f : PageFacts) :
    contentStrength (normalizeFacts f) = contentStrength f := by
  simp only [contentStrength, h1Metric_normalize, wordCountMetric_normalize,
    imageMetrics_normalize]

theorem technicalHealth_normalize (f : PageFacts) :
    technicalHealth (normalizeFacts f) = technicalHealth f := by
  simp only [technicalHealth, httpsMetric_normalize, mobileMetric_normalize,
    noindexMetric_normalize, sitemapMetric_normalize]

theorem trustCredibility_normalize (f : PageFacts) :
    trustCredibility (normalizeFacts f) = trustCredibility f := by
  simp only [trustCredibility, internalLinksMetric_normalize,
    schemaMetric_normalize]

theorem sectionsOf_normalize (f : PageFacts) :
    sectionsOf (normalizeFacts f) = sectionsOf f := by
  simp only [sectionsOf, searchVisibility_normalize, contentStrength_normalize,
    technicalHealth_normalize, trustCredibility_normalize]

theorem interpret_normalize (f : PageFacts) :
    interpretSeoMetrics (normalizeFacts f) = interpretSeoMetrics f := by
  simp only [interpretSeoMetrics, sectionsOf_normalize,
    searchVisibility_normalize, contentStrength_normalize,
    technicalHealth_normalize, trustCredibility_normalize]

/-- C5: the Content strength section carries an Image accessibility result
exactly when the image total is positive, with status warning when the
missing-alt count is positive and good otherwise; in particular total 0
emits nothing, total 10 missing 0 is good, total 10 missing 3 is warning. -/
theorem image_accessibility_rule (f : PageFacts) :
    ((((interpretSeoMetrics f).sections.getD 1 emptySection).metrics.filter
        fun m => decide (m.title = "Image accessibility")).map
        MetricResult.status)
      = (if (f.altStats.getD { total := 0, missing := 0 }).total > 0
         then [if (f.altStats.getD { total := 0, missing := 0 }).missing > 0
               then Status.warning else Status.good]
         else [])
    ∧ (((interpretSeoMetrics (imageFacts 0 0)).sections.getD 1
        emptySection).metrics.filter
        fun m => decide (m.title = "Image accessibility")) = []
    ∧ ((((interpretSeoMetrics (imageFacts 10 0)).sections.getD 1
        emptySection).metrics.filter
        fun m => decide (m.title = "Image accessibility")).map
        MetricResult.status) = [Status.good]
    ∧ ((((interpretSeoMetrics (imageFacts 10 3)).sections.getD 1
        emptySection).metrics.filter
        fun m => decide (m.title = "Image accessibility")).map
        MetricResult.status) = [Status.warning] := by
  refine ⟨?_, rfl, rfl, rfl⟩
  have h : ((interpretSeoMetrics f).sections.getD 1 emptySection).metrics
      = [h1Metric f, wordCountMetric f] ++ imageMetrics f := rfl
  have h1 : (decide ((h1Metric f).title = "Image accessibility")) = false := by
    simp only [h1Metric]
    split_ifs <;> rfl
  have h2 : (decide ((wordCountMetric f).title = "Image accessibility")) = false := by
    simp only [wordCountMetric]
    split_ifs <;> rfl
  rw [h, List.filter_append]
  simp only [List.filter_cons, h1, h2, List.filter_nil, Bool.false_eq_true,
    if_false, List.nil_append]
  by_cases ht : (f.altStats.getD { total := 0, missing := 0 }).total > 0
  · by_cases hm : (f.altStats.getD { total := 0, missing := 0 }).missing > 0
    · simp [imageMetrics, ht, hm]
    · simp [imageMetrics, ht, hm]
  · simp [imageMetrics, ht]

/-- C9: the interpreter is total and defaulting: replacing every missing
input field by its documented default leaves the report unchanged, and
every division it performs has a positive denominator (the flattened
metric list and all three category metric lists are nonempty). -/
theorem interpreter_total (f : PageFacts) :
    interpretSeoMetrics (normalizeFacts f) = interpretSeoMetrics f
    ∧ 0 < (((interpretSeoMetrics f).sections.map SeoSection.metrics).flatten).length
    ∧ 0 < (interpretSeoMetrics f).seoBreakdown.onPage.total
    ∧ 0 < (interpretSeoMetrics f).seoBreakdown.technical.total
    ∧ 0 < (interpretSeoMetrics f).seoBreakdown.authority.total := by
  have hsec : (interpretSeoMetrics f).sections = sectionsOf f := rfl
  have hon : (interpretSeoMetrics f).seoBreakdown.onPage.total
      = (searchVisibility f ++ contentStrength f).length := rfl
  have hte : (interpretSeoMetrics f).seoBreakdown.technical.total
      = (technicalHealth f).length := rfl
  have hau : (interpretSeoMetrics f).seoBreakdown.authority.total
      = (trustCredibility f ++ growthSignals).length := rfl
  refine ⟨interpret_normalize f, ?_, ?_, ?_, ?_⟩
  · rw [hsec]
    exact allMetrics_length_pos f
  · rw [hon]
    simp [searchVisibility, contentStrength]
  · rw [hte]
    simp [technicalHealth]
  · rw [hau]
    simp [trustCredibility, growthSignals]

/-- C10: the authority category always has 4 metrics of which the two
growth signals are unknown, so at most 2 pass; its score is one of 15, 25,
50, never exceeds 50, and its priority is critical or warning, never
good. -/
theorem authority_capped (f : PageFacts) :
    (interpretSeoMetrics f).seoBreakdown.authority.total = 4
    ∧ (interpretSeoMetrics f).seoBreakdown.authority.passed ≤ 2
    ∧ ((interpretSeoMetrics f).seoBreakdown.authority.score = 15
       ∨ (interpretSeoMetrics f).seoBreakdown.authority.score = 25
       ∨ (interpretSeoMetrics f).seoBreakdown.authority.score = 50)
    ∧ (interpretSeoMetrics f).seoBreakdown.authority.score ≤ 50
    ∧ ((interpretSeoMetrics f).seoBreakdown.authority.priority = Status.critical
       ∨ (interpretSeoMetrics f).seoBreakdown.authority.priority
         = Status.warning) := by
  have h : (interpretSeoMetrics f).seoBreakdown.authority
      = calculateCat (trustCredibility f ++ growthSignals)
        "Authority" "Links, trust, and domain strength" := rfl
  rw [h]
  by_cases h5 : f.internalLinks.getD 0 > 5 <;>
    by_cases hsch : f.hasSchema.getD false = true <;>
    simp [calculateCat, trustCredibility, internalLinksMetric, schemaMetric,
      growthSignals, h5, hsch, clamp, roundDiv, getPriority]
